import Mathlib

/-!
Verification of the point-e-server repository (src/server.py, src/local_server.py).

Python strings are modelled as `List Char` (a Python `str` is a sequence of
code points), bytes as `List Nat` (each entry a byte value), and the local
filesystem as an association list from path to content.  Nondeterministic
inputs of the handlers (current date, timestamp strings, uuid fragment,
measured generation time) are passed as explicit arguments; the external
inference collaborator (point_e samplers, marching cubes) is passed as a
record of abstract functions, together with an invocation counter threaded
through the handlers.
-/

set_option maxRecDepth 10000

/-- An HTTP error as raised by `HTTPException(status_code, detail)`. -/
structure HTTPErr where
  status : Nat
  detail : List Char
deriving DecidableEq, Repr

/-- Decimal rendering of a natural number, as Python `str(n)`. -/
def natStr (n : Nat) : List Char :=
  (Nat.repr n).data

/-- Decimal rendering of an integer, as Python `str(i)`. -/
def intStr (i : Int) : List Char :=
  (Int.repr i).data

/-- `starlette.exceptions.HTTPException.__str__`: the string
`f"{self.status_code}: {self.detail}"`, used when a handler-level
`except Exception as e` re-wraps a caught `HTTPException` via `str(e)`. -/
def excStr (e : HTTPErr) : List Char :=
  natStr e.status ++ (": ".data) ++ e.detail

/-- The catch-all `except Exception as e: raise HTTPException(status_code=500,
detail=str(e))` present at the end of the generation handlers. -/
def wrap500 (e : HTTPErr) : HTTPErr :=
  ⟨500, excStr e⟩

/-- ASCII lower-casing of one character, as `str.lower` behaves on the
characters relevant to the scheme comparison against "bearer". -/
def lowerChar (c : Char) : Char :=
  if 65 ≤ c.toNat ∧ c.toNat ≤ 90 then Char.ofNat (c.toNat + 32) else c

/-- `str.lower` on a modelled string. -/
def lowerStr (s : List Char) : List Char :=
  s.map lowerChar

/-- Python `s.split(" ", 1)` when it yields exactly two parts: split at the
first space; `none` when the string contains no space (in the source the
two-element unpacking then raises `ValueError`). -/
def splitFirstSpace : List Char → Option (List Char × List Char)
  | [] => none
  | c :: cs =>
    if c = ' ' then some ([], cs)
    else (splitFirstSpace cs).map (fun p => (c :: p.1, p.2))

/-- Python substring membership `needle in hay` for strings. -/
def startsWithL : List Char → List Char → Bool
  | [], _ => true
  | _ :: _, [] => false
  | a :: as_, b :: bs => a = b && startsWithL as_ bs

/-- Python `hay.endswith(suffix)`. -/
def endsWithL (suffix hay : List Char) : Bool :=
  startsWithL suffix.reverse hay.reverse

/-- Python `needle in hay` (substring occurrence test). -/
def containsSub (hay needle : List Char) : Bool :=
  match hay with
  | [] => needle.isEmpty
  | _ :: t => startsWithL needle hay || containsSub t needle

/-- `os.path.basename`: the part of a path after the last slash. -/
def basenameL (p : List Char) : List Char :=
  match p with
  | [] => []
  | c :: rest =>
    let r := basenameL rest
    if c = '/' then (if containsSub rest ("/".data) then r else rest) else
      (if containsSub rest ("/".data) then r else c :: rest)

/-- Zero-padded two-digit rendering, as `strftime` `%m` / `%d`. -/
def pad2 (n : Nat) : List Char :=
  if n < 10 then '0' :: natStr n else natStr n

/-- Zero-padded four-digit rendering, as `strftime` `%Y`. -/
def pad4 (n : Nat) : List Char :=
  List.replicate (4 - (natStr n).length) '0' ++ natStr n

/-- A calendar date as produced by `datetime.now().date()`. -/
structure DateD where
  year : Nat
  month : Nat
  day : Nat
deriving DecidableEq, Repr

/-- `str(datetime.date(y, m, d))`, i.e. ISO `YYYY-MM-DD`. -/
def dateIso (d : DateD) : List Char :=
  pad4 d.year ++ ("-".data) ++ pad2 d.month ++ ("-".data) ++ pad2 d.day

/-- The local filesystem (or a blob store) as path-to-bytes bindings;
the most recent binding for a path is the file content. -/
abbrev FileSys : Type := List (List Char × List Nat)

/-- Writing a file (`open(path, 'wb')` followed by `write`): the new binding
shadows any previous content at the same path. -/
def fsWrite (fs : FileSys) (path : List Char) (content : List Nat) : FileSys :=
  (path, content) :: fs

/-- Reading a file if it exists. -/
def fsRead (fs : FileSys) (path : List Char) : Option (List Nat) :=
  List.lookup path fs

/-- Result of `verify_secret_key`: a boolean verdict, or the `ValueError`
raised when no secret is configured. -/
inductive AuthCheck where
  | ok (b : Bool)
  | configError
deriving DecidableEq, Repr

namespace Server

/-- `verify_secret_key` (src/server.py lines 57-71).  Raises `ValueError`
when `SECRET_KEY` is empty; returns `False` for an absent or empty header;
splits the header at the first space (`ValueError` from unpacking is caught
by the bare `except` and yields `False`); compares the scheme
case-insensitively against "bearer"; finally compares the token with the
configured secret via `hmac.compare_digest` (equality of the two strings). -/
def verify_secret_key (secretKey : List Char) (authorization : Option (List Char)) :
    AuthCheck :=
  if secretKey = [] then .configError
  else
    match authorization with
    | none => .ok false
    | some a =>
      if a = [] then .ok false
      else
        match splitFirstSpace a with
        | none => .ok false
        | some (scheme, token) =>
          if lowerStr scheme ≠ ("bearer".data) then .ok false
          else .ok (token = secretKey)

end Server

/-! ### MD5 (hashlib.md5), used by generate_user_id -/

/-- Per-round shift amounts of MD5. -/
def md5S : List Nat :=
  [7, 12, 17, 22, 7, 12, 17, 22, 7, 12, 17, 22, 7, 12, 17, 22,
   5, 9, 14, 20, 5, 9, 14, 20, 5, 9, 14, 20, 5, 9, 14, 20,
   4, 11, 16, 23, 4, 11, 16, 23, 4, 11, 16, 23, 4, 11, 16, 23,
   6, 10, 15, 21, 6, 10, 15, 21, 6, 10, 15, 21, 6, 10, 15, 21]

/-- MD5 sine-derived constants, K[i] = floor(2^32 * abs(sin(i+1))). -/
def md5K : List Nat :=
  [3614090360, 3905402710, 606105819, 3250441966, 4118548399, 1200080426,
   2821735955, 4249261313, 1770035416, 2336552879, 4294925233, 2304563134,
   1804603682, 4254626195, 2792965006, 1236535329, 4129170786, 3225465664,
   643717713, 3921069994, 3593408605, 38016083, 3634488961, 3889429448,
   568446438, 3275163606, 4107603335, 1163531501, 2850285829, 4243563512,
   1735328473, 2368359562, 4294588738, 2272392833, 1839030562, 4259657740,
   2763975236, 1272893353, 4139469664, 3200236656, 681279174, 3936430074,
   3572445317, 76029189, 3654602809, 3873151461, 530742520, 3299628645,
   4096336452, 1126891415, 2878612391, 4237533241, 1700485571, 2399980690,
   4293915773, 2240044497, 1873313359, 4264355552, 2734768916, 1309151649,
   4149444226, 3174756917, 718787259, 3951481745]

/-- 32-bit left rotation on naturals reduced modulo 2^32. -/
def rotl32 (x c : Nat) : Nat :=
  ((x <<< c) ||| (x >>> (32 - c))) &&& 0xFFFFFFFF

/-- One of the 64 MD5 rounds on state (A, B, C, D) with message words M. -/
def md5Round (M : List Nat) (abcd : Nat × Nat × Nat × Nat) (i : Nat) :
    Nat × Nat × Nat × Nat :=
  let A := abcd.1
  let B := abcd.2.1
  let C := abcd.2.2.1
  let D := abcd.2.2.2
  let fg : Nat × Nat :=
    if i < 16 then ((B &&& C) ||| ((B ^^^ 0xFFFFFFFF) &&& D), i)
    else if i < 32 then ((D &&& B) ||| ((D ^^^ 0xFFFFFFFF) &&& C), (5 * i + 1) % 16)
    else if i < 48 then (B ^^^ C ^^^ D, (3 * i + 5) % 16)
    else (C ^^^ (B ||| (D ^^^ 0xFFFFFFFF)), (7 * i) % 16)
  let tmp := (fg.1 + A + md5K.getD i 0 + M.getD fg.2 0) &&& 0xFFFFFFFF
  (D, (B + rotl32 tmp (md5S.getD i 0)) &&& 0xFFFFFFFF, B, C)

/-- Processing one 512-bit chunk (given as 16 little-endian words). -/
def md5Chunk (st : Nat × Nat × Nat × Nat) (M : List Nat) : Nat × Nat × Nat × Nat :=
  let r := (List.range 64).foldl (md5Round M) st
  ((st.1 + r.1) &&& 0xFFFFFFFF, (st.2.1 + r.2.1) &&& 0xFFFFFFFF,
   (st.2.2.1 + r.2.2.1) &&& 0xFFFFFFFF, (st.2.2.2 + r.2.2.2) &&& 0xFFFFFFFF)

/-- Little-endian 8-byte rendering of a 64-bit value. -/
def le8 (n : Nat) : List Nat :=
  (List.range 8).map (fun i => (n >>> (8 * i)) &&& 0xFF)

/-- Little-endian 4-byte rendering of a 32-bit value. -/
def le4 (n : Nat) : List Nat :=
  (List.range 4).map (fun i => (n >>> (8 * i)) &&& 0xFF)

/-- MD5 padding: 0x80, zeros to 56 mod 64, then the bit length, little-endian. -/
def md5Pad (msg : List Nat) : List Nat :=
  msg ++ [0x80] ++ List.replicate ((119 - msg.length % 64) % 64) 0
    ++ le8 ((msg.length * 8) % (2 ^ 64))

/-- Splitting a byte sequence into 64-byte chunks. -/
def chunks64 : List Nat → List (List Nat)
  | [] => []
  | a :: rest => ((a :: rest).take 64) :: chunks64 ((a :: rest).drop 64)
termination_by l => l.length
decreasing_by
  simp only [List.length_drop, List.length_cons]
  omega

/-- The 16 little-endian message words of one 64-byte chunk. -/
def toWords (chunk : List Nat) : List Nat :=
  (List.range 16).map (fun j =>
    chunk.getD (4 * j) 0 + 256 * chunk.getD (4 * j + 1) 0
      + 65536 * chunk.getD (4 * j + 2) 0 + 16777216 * chunk.getD (4 * j + 3) 0)

/-- The 16-byte MD5 digest of a byte sequence. -/
def md5Bytes (msg : List Nat) : List Nat :=
  let r := (chunks64 (md5Pad msg)).foldl (fun st ch => md5Chunk st (toWords ch))
    (0x67452301, 0xefcdab89, 0x98badcfe, 0x10325476)
  le4 r.1 ++ le4 r.2.1 ++ le4 r.2.2.1 ++ le4 r.2.2.2

/-- Lower-case hexadecimal digit. -/
def hexDigit (n : Nat) : Char :=
  if n < 10 then Char.ofNat (48 + n) else Char.ofNat (87 + n)

/-- `hashlib.md5(msg).hexdigest()`. -/
def md5hex (msg : List Nat) : List Char :=
  ((md5Bytes msg).map (fun b => [hexDigit (b / 16), hexDigit (b % 16)])).flatten

/-- UTF-8 encoding of one code point, as Python `str.encode()`. -/
def utf8EncodeCharM (c : Char) : List Nat :=
  let n := c.toNat
  if n < 128 then [n]
  else if n < 2048 then [192 ||| (n >>> 6), 128 ||| (n &&& 63)]
  else if n < 65536 then
    [224 ||| (n >>> 12), 128 ||| ((n >>> 6) &&& 63), 128 ||| (n &&& 63)]
  else
    [240 ||| (n >>> 18), 128 ||| ((n >>> 12) &&& 63), 128 ||| ((n >>> 6) &&& 63),
     128 ||| (n &&& 63)]

/-- UTF-8 encoding of a modelled string. -/
def utf8Bytes (l : List Char) : List Nat :=
  (l.map utf8EncodeCharM).flatten

/-- Rendering of a header value taken from the headers dict built in the
handlers: the dict always carries the keys, so `headers.get(k, '')` returns
the stored value, which is `None` when the HTTP header was absent, and the
f-string then renders it as the four characters "None". -/
def pyShowOpt : Option (List Char) → List Char
  | none => "None".data
  | some s => s

/-! ### Prompt sanitisation and the PLY codec -/

/-- The characters kept by the filename slug:
`c.isalnum() or c in (' ', '-', '_')` (ASCII view of `isalnum`). -/
def keepChar (c : Char) : Bool :=
  c.isAlphanum || c = ' ' || c = '-' || c = '_'

/-- Python whitespace stripped by `str.rstrip()`. -/
def pyIsSpace (c : Char) : Bool :=
  c = ' ' || c = '\t' || c = '\n' || c = '\r' || c = '\x0b' || c = '\x0c'

/-- `str.rstrip()`: drop trailing whitespace. -/
def rstripWs (l : List Char) : List Char :=
  (l.reverse.dropWhile pyIsSpace).reverse

/-- `"".join(c for c in prompt if c.isalnum() or c in (' ', '-', '_')).rstrip()[:30]`. -/
def safePromptOf (prompt : List Char) : List Char :=
  (rstripWs (prompt.filter keepChar)).take 30

/-- A point cloud: coordinates plus named colour channels (the `channels`
dict of the point_e PointCloud, values in [0,1] scaled on output). The
coordinate scalar type is abstract; its f-string rendering is a parameter. -/
structure PCloudG (α : Type) where
  coords : List (α × α × α)
  channels : List (List Char × List Rat)
deriving DecidableEq, Repr

/-- A triangle mesh as used by the handlers (only the lengths of `verts`
and `faces` are read by the orchestration code). -/
structure MeshM (α : Type) where
  verts : List (α × α × α)
  faces : List (Nat × Nat × Nat)
deriving DecidableEq, Repr

/-- Channel lookup, `colors[name]`. -/
def getCh {α : Type} (pc : PCloudG α) (name : List Char) : List Rat :=
  (List.lookup name pc.channels).getD []

/-- `'R' in colors`. -/
def hasR {α : Type} (pc : PCloudG α) : Bool :=
  (List.lookup ("R".data) pc.channels).isSome

/-- Python `int()` applied to a number: truncation toward zero. -/
def pyTrunc (q : Rat) : Int :=
  if 0 ≤ q then ⌊q⌋ else -⌊-q⌋

/-- `int(colors[name][i] * 255)`. -/
def chInt {α : Type} (pc : PCloudG α) (name : List Char) (i : Nat) : Int :=
  pyTrunc ((getCh pc name).getD i 0 * 255)

/-- One vertex line of the PLY body (without the trailing newline):
`f"{x} {y} {z}"`, extended with `f" {r} {g} {b}"` when colours are present. -/
def plyVertexLine {α : Type} [Inhabited α] (fmt : α → List Char) (pc : PCloudG α)
    (i : Nat) : List Char :=
  let c := pc.coords.getD i default
  fmt c.1 ++ ' ' :: fmt c.2.1 ++ ' ' :: fmt c.2.2 ++
    (if hasR pc then
      ' ' :: intStr (chInt pc ("R".data) i) ++ ' ' :: intStr (chInt pc ("G".data) i)
        ++ ' ' :: intStr (chInt pc ("B".data) i)
    else [])

/-- Join lines with a newline terminator after each line. -/
def joinNl (ls : List (List Char)) : List Char :=
  (ls.map (fun l => l ++ ("\n".data))).flatten

/-- `save_pointcloud_ply` (src/server.py lines 319-338); the identical
construction is inlined in the point-cloud branch of `text_to_3d`
(lines 440-456).  The sequence of `f.write` calls is modelled as string
concatenation; the f-string rendering of a coordinate is the abstract
`fmt` parameter. -/
def save_pointcloud_ply {α : Type} [Inhabited α] (fmt : α → List Char)
    (pc : PCloudG α) : List Char :=
  let coords := pc.coords
  ("ply\nformat ascii 1.0\n".data)
    ++ ("element vertex ".data) ++ natStr coords.length ++ ("\n".data)
    ++ ("property float x\nproperty float y\nproperty float z\n".data)
    ++ (if hasR pc then
          ("property uchar red\nproperty uchar green\nproperty uchar blue\n".data)
        else [])
    ++ ("end_header\n".data)
    ++ (List.range coords.length).foldl
        (fun acc i => acc ++ (plyVertexLine fmt pc i ++ ("\n".data))) []

namespace Server

/-- `generate_user_id` (src/server.py lines 154-161):
`f"user_{hashlib.md5(f"{ua}{ip}{date}".encode()).hexdigest()[:8]}"`,
with the current calendar date made an explicit argument. -/
def generate_user_id (userAgent xForwardedFor : Option (List Char)) (today : DateD) :
    List Char :=
  ("user_".data)
    ++ (md5hex (utf8Bytes (pyShowOpt userAgent ++ pyShowOpt xForwardedFor
          ++ dateIso today))).take 8

/-- `datetime.now().strftime('%Y/%m/%d')`. -/
def dateFolder (d : DateD) : List Char :=
  pad4 d.year ++ ("/".data) ++ pad2 d.month ++ ("/".data) ++ pad2 d.day

/-- `get_storage_path` (src/server.py lines 163-166):
`f"users/{user_id}/{date_folder}/{filename}"`. -/
def get_storage_path (userId filename : List Char) (today : DateD) : List Char :=
  ("users/".data) ++ userId ++ ("/".data) ++ dateFolder today ++ ("/".data) ++ filename

/-- `save_to_local` (src/server.py lines 192-200): write the bytes to the
flat scratch directory `/tmp/point-e-models` and return `/download/<filename>`. -/
def save_to_local (fs : FileSys) (content : List Nat) (filename : List Char) :
    FileSys × List Char :=
  (fsWrite fs (("/tmp/point-e-models/".data) ++ filename) content,
   ("/download/".data) ++ filename)

/-- `download` (src/server.py lines 592-599): serve
`/tmp/point-e-models/<filename>` or fail with 404. -/
def download (fs : FileSys) (filename : List Char) : Except HTTPErr (List Nat) :=
  match fsRead fs (("/tmp/point-e-models/".data) ++ filename) with
  | none => .error ⟨404, ("File not found".data)⟩
  | some content => .ok content

/-- The request body of `POST /generate/text` (`TextRequest`,
src/server.py lines 91-96).  `grid_size` is a bare `int` with default 32:
the model carries no range constraint, exactly as the source declares none. -/
structure TextRequestM where
  prompt : List Char
  userId : Option (List Char) := none
  format : List Char := "mesh".data
  gridSize : Int := 32
  numSamples : Int := 1
deriving DecidableEq, Repr

/-- The response model `GenerationResponse` (src/server.py lines 98-106). -/
structure GenResp where
  success : Bool
  message : List Char
  fileUrl : List Char
  downloadUrl : List Char
  userId : List Char
  vertices : Nat
  faces : Nat
  expiresAt : List Char
deriving DecidableEq, Repr

/-- The module-level mutable state of src/server.py: readiness flag, which
samplers/models are non-None, whether `gcs_client` is non-None, and the
local scratch directory. -/
structure ServerState where
  modelsReady : Bool
  textSamplerLoaded : Bool
  imageSamplerLoaded : Bool
  sdfLoaded : Bool
  gcsAvailable : Bool
  fs : FileSys
deriving DecidableEq, Repr

/-- The external inference and storage collaborators, abstracted:
the text sampler pipeline, `marching_cubes_mesh`, `mesh.write_ply`,
`save_to_gcs` (returning the signed URL, or None on any upload failure),
and the f-string rendering of a coordinate scalar. -/
structure Collab (α : Type) where
  sample : List Char → PCloudG α
  meshify : PCloudG α → Int → MeshM α
  meshPly : MeshM α → List Nat
  gcsPut : List Char → List Nat → Option (List Char)
  fmtF : α → List Char

/-- Nondeterministic per-request inputs: `strftime('%Y%m%d_%H%M%S')`,
`str(uuid.uuid4())[:8]`, `datetime.now().date()`, and
`(datetime.now() + timedelta(days=30)).isoformat()`. -/
structure ReqCtx where
  timestamp : List Char
  requestId : List Char
  today : DateD
  expiresIso : List Char

/-- `generate_from_text` (src/server.py lines 284-293); the second
component counts invocations of the sampler. -/
def generate_from_text {α : Type} (st : ServerState) (sample : List Char → PCloudG α)
    (prompt : List Char) : Except HTTPErr (PCloudG α) × Nat :=
  if !st.modelsReady || !st.textSamplerLoaded then
    (.error ⟨503, ("Models not ready".data)⟩, 0)
  else (.ok (sample prompt), 1)

/-- `pointcloud_to_mesh` (src/server.py lines 306-317). -/
def pointcloud_to_mesh {α : Type} (st : ServerState)
    (meshify : PCloudG α → Int → MeshM α) (pc : PCloudG α) (gridSize : Int) :
    Except HTTPErr (MeshM α) :=
  if !st.modelsReady || !st.sdfLoaded then
    .error ⟨503, ("SDF model not ready".data)⟩
  else .ok (meshify pc gridSize)

/-- The storage block duplicated in both branches of `text_to_3d`: try GCS
when the client exists, fall back to the local tier when it is absent or the
upload returned no URL.  Returns (file_url, download_url, new state). -/
def storeArtifact {α : Type} (st : ServerState) (co : Collab α) (ctx : ReqCtx)
    (userId filename : List Char) (content : List Nat) :
    List Char × List Char × ServerState :=
  let attempt :=
    if st.gcsAvailable then co.gcsPut (get_storage_path userId filename ctx.today) content
    else none
  match attempt with
  | some url => (("/gcs/".data) ++ filename, url, st)
  | none =>
    let r := save_to_local st.fs content filename
    (r.2, r.2, { st with fs := r.1 })

/-- `text_to_3d` (src/server.py lines 368-485).  The whole body after
authentication sits in a `try` whose `except Exception as e` re-raises
`HTTPException(500, str(e))`, so the 503s raised inside are re-wrapped.
The `ValueError` from an unconfigured secret escapes the handler and
surfaces as the framework's generic 500.  The third component counts
invocations of the text sampler. -/
def text_to_3d {α : Type} [Inhabited α] (secret : List Char) (st : ServerState)
    (co : Collab α) (ctx : ReqCtx) (req : TextRequestM)
    (userAgent xForwardedFor authorization : Option (List Char)) :
    Except HTTPErr GenResp × ServerState × Nat :=
  match verify_secret_key secret authorization with
  | .configError => (.error ⟨500, ("Internal Server Error".data)⟩, st, 0)
  | .ok false => (.error ⟨401, ("Invalid or missing authentication token".data)⟩, st, 0)
  | .ok true =>
    let userId :=
      match req.userId with
      | some u => if u = [] then generate_user_id userAgent xForwardedFor ctx.today else u
      | none => generate_user_id userAgent xForwardedFor ctx.today
    match generate_from_text st co.sample req.prompt with
    | (.error e, n) => (.error (wrap500 e), st, n)
    | (.ok pc, n) =>
      let safePrompt := safePromptOf req.prompt
      if req.format = ("mesh".data) then
        match pointcloud_to_mesh st co.meshify pc req.gridSize with
        | .error e => (.error (wrap500 e), st, n)
        | .ok mesh =>
          let filename := ("mesh_".data) ++ safePrompt ++ ("_".data) ++ ctx.timestamp
            ++ ("_".data) ++ ctx.requestId ++ (".ply".data)
          let s := storeArtifact st co ctx userId filename (co.meshPly mesh)
          (.ok { success := true
                 message := ("Generated mesh: ".data) ++ req.prompt
                 fileUrl := s.1
                 downloadUrl := s.2.1
                 userId := userId
                 vertices := mesh.verts.length
                 faces := mesh.faces.length
                 expiresAt := ctx.expiresIso }, s.2.2, n)
      else
        let plyBytes := utf8Bytes (save_pointcloud_ply co.fmtF pc)
        let filename := ("pointcloud_".data) ++ safePrompt ++ ("_".data) ++ ctx.timestamp
          ++ ("_".data) ++ ctx.requestId ++ (".ply".data)
        let s := storeArtifact st co ctx userId filename plyBytes
        (.ok { success := true
               message := ("Generated point cloud: ".data) ++ req.prompt
               fileUrl := s.1
               downloadUrl := s.2.1
               userId := userId
               vertices := pc.coords.length
               faces := 0
               expiresAt := ctx.expiresIso }, s.2.2, n)

/-- `load_models_fast` (src/server.py lines 202-268).  All four loads (text,
upsampler, 1B image model, SDF) happen in one `try`; any failure leaves
`models_ready = False` and re-raises, and `setup_gcs` runs only after all of
them succeed.  The booleans say which external loads would succeed. -/
def load_models_fast (textOk imageOk sdfOk gcsOk : Bool) : ServerState :=
  { modelsReady := textOk && imageOk && sdfOk
    textSamplerLoaded := textOk
    imageSamplerLoaded := textOk && imageOk
    sdfLoaded := textOk && imageOk && sdfOk
    gcsAvailable := textOk && imageOk && sdfOk && gcsOk
    fs := [] }

/-- A stored blob as listed from the bucket: full object name, creation
time (already rendered in ISO form, as `time_created.isoformat()`), size,
and the signed URL the SDK would generate for it. -/
structure Blob where
  name : List Char
  timeCreated : Option (List Char)
  size : Nat
  signedUrl : List Char
deriving DecidableEq, Repr

/-- One catalog entry of `get_user_models` (`mtype` is the `type` field of
the source dict). -/
structure ModelEntry where
  filename : List Char
  path : List Char
  downloadUrl : List Char
  created : Option (List Char)
  size : Nat
  mtype : List Char
deriving DecidableEq, Repr

/-- The response model `UserModelsResponse` (src/server.py lines 108-111). -/
structure UserModelsResp where
  userId : List Char
  models : List ModelEntry
  totalCount : Nat
deriving DecidableEq, Repr

/-- Code-point lexicographic comparison, as Python string `<=`. -/
def strLeB : List Char → List Char → Bool
  | [], _ => true
  | _ :: _, [] => false
  | a :: as_, b :: bs =>
    if a.toNat < b.toNat then true
    else if b.toNat < a.toNat then false
    else strLeB as_ bs

/-- The sort key `x['created'] or ''`. -/
def createdKey (e : ModelEntry) : List Char :=
  e.created.getD []

/-- The dict built for one blob inside `get_user_models`:
`"type": "mesh" if "mesh_" in blob.name else "pointcloud"`. -/
def entryOf (b : Blob) : ModelEntry :=
  { filename := basenameL b.name
    path := b.name
    downloadUrl := b.signedUrl
    created := b.timeCreated
    size := b.size
    mtype := if containsSub b.name ("mesh_".data) then ("mesh".data)
             else ("pointcloud".data) }

/-- `get_user_models` (src/server.py lines 561-590).  With `gcs_client`
absent it raises 503 before the `try`; otherwise it lists blobs under
`users/<user_id>/`, keeps `.ply` objects, and sorts by creation time
descending.  Python `sorted(..., key=k, reverse=True)` is a stable sort
under the reversed key comparison; it is modelled by the stable
`List.insertionSort` with ties ordered as in the input. -/
def get_user_models (gcs : Option (List Blob)) (userId : List Char) :
    Except HTTPErr UserModelsResp :=
  match gcs with
  | none => .error ⟨503, ("Storage not available".data)⟩
  | some blobs =>
    let pref := ("users/".data) ++ userId ++ ("/".data)
    let models := ((blobs.filter (fun b => startsWithL pref b.name)).filter
        (fun b => endsWithL (".ply".data) b.name)).map entryOf
    .ok { userId := userId
          models := List.insertionSort
            (fun a b => strLeB (createdKey b) (createdKey a) = true) models
          totalCount := models.length }

end Server

namespace LocalServer

/-- The module-level mutable state of src/local_server.py. -/
structure LState where
  modelsReady : Bool
  textSamplerLoaded : Bool
  imageModelLoaded : Bool
  imageSamplerLoaded : Bool
  sdfLoaded : Bool
deriving DecidableEq, Repr

/-- `load_models` (src/local_server.py lines 77-149).  The text/upsampler
and SDF loads sit in the outer `try` (any failure leaves
`models_ready = False` and re-raises); the image-model block has its own
inner `try/except` so its failure only leaves `image_model = None` and
`image_sampler = None` while loading continues. -/
def load_models (textOk imageOk sdfOk : Bool) : LState :=
  if !textOk then ⟨false, false, false, false, false⟩
  else
    { modelsReady := sdfOk
      textSamplerLoaded := true
      imageModelLoaded := imageOk
      imageSamplerLoaded := imageOk
      sdfLoaded := sdfOk }

/-- The external collaborators of the local server. -/
structure LocalCollab (α : Type) where
  sampleText : List Char → PCloudG α
  sampleImage : List Nat → PCloudG α
  meshify : PCloudG α → Int → MeshM α
  meshPly : MeshM α → List Nat

/-- `generate_from_text` (src/local_server.py lines 166-179); the counter
counts sampler invocations. -/
def generate_from_text {α : Type} (st : LState) (sample : List Char → PCloudG α)
    (prompt : List Char) : Except HTTPErr (PCloudG α) × Nat :=
  if !st.modelsReady || !st.textSamplerLoaded then
    (.error ⟨503, ("Models not ready".data)⟩, 0)
  else (.ok (sample prompt), 1)

/-- `generate_from_image` (src/local_server.py lines 181-194). -/
def generate_from_image {α : Type} (st : LState) (co : LocalCollab α)
    (img : List Nat) : Except HTTPErr (PCloudG α) × Nat :=
  if !st.modelsReady || !st.imageSamplerLoaded then
    (.error ⟨503, ("Image model not available".data)⟩, 0)
  else (.ok (co.sampleImage img), 1)

/-- `pointcloud_to_mesh` (src/local_server.py lines 196-207). -/
def pointcloud_to_mesh {α : Type} (st : LState)
    (meshify : PCloudG α → Int → MeshM α) (pc : PCloudG α) (gridSize : Int) :
    Except HTTPErr (MeshM α) :=
  if !st.modelsReady || !st.sdfLoaded then
    .error ⟨503, ("SDF model not ready".data)⟩
  else .ok (meshify pc gridSize)

/-- `save_mesh_locally` (src/local_server.py lines 209-225): write under
`generated_models/<user_id>/mesh_<slug>_<timestamp>.ply`; returns the new
filesystem, the file path and the filename. -/
def save_mesh_locally (fs : FileSys) (meshBytes : List Nat)
    (userId prompt timestamp : List Char) : FileSys × List Char × List Char :=
  let filename := ("mesh_".data) ++ safePromptOf prompt ++ ("_".data) ++ timestamp
    ++ (".ply".data)
  let filepath := ("generated_models/".data) ++ userId ++ ("/".data) ++ filename
  (fsWrite fs filepath meshBytes, filepath, filename)

/-- The local-server response model. -/
structure LocalResp where
  success : Bool
  message : List Char
  fileUrl : List Char
  filePath : List Char
  userId : List Char
  vertices : Nat
  faces : Nat
  deviceUsed : List Char
  generationTime : Rat
deriving DecidableEq, Repr

/-- Nondeterministic inputs of a local-server request: the timestamp
string, the detected device name, and the measured (already rounded)
generation time. -/
structure LocalCtx where
  timestamp : List Char
  deviceName : List Char
  genTimeRounded : Rat

/-- `image_to_3d` (src/local_server.py lines 283-325).  The capability
check `if not image_model` sits inside the `try`, so its 503 is re-wrapped
to a 500 by the trailing `except Exception`.  `Path(file.filename).stem` is
modelled as the input `fileStem`; `fileNameGiven` is the truthiness of
`file.filename`.  The counter counts image-sampler invocations. -/
def image_to_3d {α : Type} (st : LState) (co : LocalCollab α) (fs : FileSys)
    (ctx : LocalCtx) (imgBytes : List Nat) (fileNameGiven : Bool)
    (fileStem : List Char) (userId : List Char) (gridSize : Int) :
    Except HTTPErr LocalResp × FileSys × Nat :=
  if !st.imageModelLoaded then
    (.error (wrap500 ⟨503, ("Image model not available. Use text-to-3D instead.".data)⟩),
     fs, 0)
  else
    match generate_from_image st co imgBytes with
    | (.error e, n) => (.error (wrap500 e), fs, n)
    | (.ok pc, n) =>
      match pointcloud_to_mesh st co.meshify pc gridSize with
      | .error e => (.error (wrap500 e), fs, n)
      | .ok mesh =>
        let prompt := if fileNameGiven then ("from_".data) ++ fileStem
                      else ("from_image".data)
        let r := save_mesh_locally fs (co.meshPly mesh) userId prompt ctx.timestamp
        (.ok { success := true
               message := ("Generated mesh from image".data)
               fileUrl := ("/download/".data) ++ userId ++ ("/".data) ++ r.2.2
               filePath := r.2.1
               userId := userId
               vertices := mesh.verts.length
               faces := mesh.faces.length
               deviceUsed := ctx.deviceName
               generationTime := ctx.genTimeRounded }, r.1, n)

end LocalServer

/-! ### Concrete instances used by the closed theorems -/

/-- A collaborator double whose sampler returns an empty point cloud. -/
def trivCollab : Server.Collab Int :=
  { sample := fun _ => ⟨[], []⟩
    meshify := fun _ _ => ⟨[], []⟩
    meshPly := fun _ => []
    gcsPut := fun _ _ => none
    fmtF := fun i => intStr i }

/-- A fixed request context. -/
def trivCtx : Server.ReqCtx :=
  { timestamp := "20251012_120000".data
    requestId := "abcd1234".data
    today := ⟨2025, 10, 12⟩
    expiresIso := "2025-11-11T12:00:00".data }

/-- The state while models are still loading (`models_ready = False`). -/
def stNotReady : Server.ServerState :=
  { modelsReady := false, textSamplerLoaded := false, imageSamplerLoaded := false,
    sdfLoaded := false, gcsAvailable := false, fs := [] }

/-- A ready state with GCS absent (local storage tier). -/
def stReadyLocal : Server.ServerState :=
  { modelsReady := true, textSamplerLoaded := true, imageSamplerLoaded := true,
    sdfLoaded := true, gcsAvailable := false, fs := [] }

/-- A text request with `grid_size = 0` (accepted by the request model). -/
def reqGrid0 : Server.TextRequestM :=
  { prompt := "a cube".data, userId := some ("u1".data), format := "mesh".data,
    gridSize := 0, numSamples := 1 }

/-- A local-server collaborator double. -/
def trivLocalCollab : LocalServer.LocalCollab Int :=
  { sampleText := fun _ => ⟨[], []⟩
    sampleImage := fun _ => ⟨[], []⟩
    meshify := fun _ _ => ⟨[], []⟩
    meshPly := fun _ => [] }

/-- A fixed local-server request context. -/
def trivLocalCtx : LocalServer.LocalCtx :=
  { timestamp := "20251012_120000".data
    deviceName := "CPU".data
    genTimeRounded := 0 }

/-- A stored point-cloud artifact whose prompt-derived slug happens to
contain the characters "mesh_": its object name is
users/u1/.../pointcloud_a mesh_cube_....ply. -/
def blobTricky : Server.Blob :=
  { name := "users/u1/2025/01/02/pointcloud_a mesh_cube_20250102_abcd1234.ply".data
    timeCreated := some ("2025-01-02T10:00:00".data)
    size := 17
    signedUrl := "https://signed.example/mesh".data }

/-- A stored mesh artifact with the conventional mesh filename. -/
def blobMesh : Server.Blob :=
  { name := "users/u2/2025/01/03/mesh_chair_20250103_00ff00aa.ply".data
    timeCreated := some ("2025-01-03T11:00:00".data)
    size := 42
    signedUrl := "https://signed.example/chair".data }

/-- A concrete two-point coloured point cloud (channel values in [0,1]). -/
def pcSample : PCloudG Int :=
  { coords := [(1, 2, 3), (4, 5, 6)]
    channels := [(("R".data), [(1 : Rat)/2, (1 : Rat)/4]),
                 (("G".data), [(0 : Rat), (1 : Rat)]),
                 (("B".data), [(3 : Rat)/4, (1 : Rat)])] }

theorem splitFirstSpace_sound :
    ∀ (a s t : List Char), splitFirstSpace a = some (s, t) →
      a = s ++ ' ' :: t ∧ ' ' ∉ s := by
  intro a
  induction a with
  | nil => intro s t h; simp [splitFirstSpace] at h
  | cons c cs ih =>
    intro s t h
    simp only [splitFirstSpace] at h
    by_cases hc : c = ' '
    · rw [if_pos hc] at h
      simp only [Option.some.injEq, Prod.mk.injEq] at h
      obtain ⟨h1, h2⟩ := h
      subst hc
      constructor
      · rw [← h1, ← h2]; simp
      · rw [← h1]; simp
    · rw [if_neg hc] at h
      match hsp : splitFirstSpace cs with
      | none => rw [hsp] at h; simp at h
      | some (s1, t1) =>
        rw [hsp] at h
        simp only [Option.map, Option.some.injEq, Prod.mk.injEq] at h
        obtain ⟨h1, h2⟩ := h
        obtain ⟨ha, hn⟩ := ih s1 t1 hsp
        subst h2
        rw [← h1]
        constructor
        · simp [ha]
        · intro hmem
          rcases List.mem_cons.mp hmem with hm | hm
          · exact hc hm.symm
          · exact hn hm

theorem splitFirstSpace_complete :
    ∀ (s t : List Char), ' ' ∉ s →
      splitFirstSpace (s ++ ' ' :: t) = some (s, t) := by
  intro s
  induction s with
  | nil => intro t _; simp [splitFirstSpace]
  | cons c cs ih =>
    intro t hns
    have hc : ¬ (c = ' ') := fun h => hns (by simp [h])
    have hcs : ' ' ∉ cs := fun h => hns (List.mem_cons_of_mem _ h)
    show splitFirstSpace (c :: (cs ++ ' ' :: t)) = some (c :: cs, t)
    unfold splitFirstSpace
    rw [if_neg hc, ih t hcs]
    rfl

/-- C2: `verify_secret_key` fails closed.  With no configured secret it
signals a configuration error (`ValueError`); with a configured secret it
never throws, and returns `True` exactly when the presented header is
`<scheme> <token>` with scheme lower-casing to "bearer" and token equal to
the secret (hence any token differing from the secret in any position is
rejected); absent, empty or schemeless headers yield `False`. -/
theorem verify_secret_key_correct (secret : List Char) (auth : Option (List Char))
    (hs : secret ≠ []) :
    Server.verify_secret_key [] auth = .configError ∧
    (∃ b, Server.verify_secret_key secret auth = .ok b) ∧
    (Server.verify_secret_key secret auth = .ok true ↔
      ∃ scheme, lowerStr scheme = ("bearer".data) ∧
        auth = some (scheme ++ ' ' :: secret)) := by
  refine ⟨rfl, ?_, ?_⟩
  · cases auth with
    | none => exact ⟨false, by simp [Server.verify_secret_key, hs]⟩
    | some a =>
      by_cases ha : a = []
      · exact ⟨false, by simp [Server.verify_secret_key, hs, ha]⟩
      · match hsp : splitFirstSpace a with
        | none => exact ⟨false, by simp [Server.verify_secret_key, hs, ha, hsp]⟩
        | some (scheme, token) =>
          by_cases hb : lowerStr scheme = ("bearer".data)
          · exact ⟨token = secret, by simp [Server.verify_secret_key, hs, ha, hsp, hb]⟩
          · exact ⟨false, by simp [Server.verify_secret_key, hs, ha, hsp, hb]⟩
  · constructor
    · intro h
      cases auth with
      | none => simp [Server.verify_secret_key, hs] at h
      | some a =>
        by_cases ha : a = []
        · simp [Server.verify_secret_key, hs, ha] at h
        · match hsp : splitFirstSpace a with
          | none => simp [Server.verify_secret_key, hs, ha, hsp] at h
          | some (scheme, token) =>
            by_cases hb : lowerStr scheme = ("bearer".data)
            · simp [Server.verify_secret_key, hs, ha, hsp, hb] at h
              obtain ⟨ha2, _⟩ := splitFirstSpace_sound a scheme token hsp
              exact ⟨scheme, hb, by rw [ha2, h]⟩
            · simp [Server.verify_secret_key, hs, ha, hsp, hb] at h
    · rintro ⟨scheme, hb, hauth⟩
      subst hauth
      have hnos : ' ' ∉ scheme := by
        intro hmem
        have hin : lowerChar ' ' ∈ lowerStr scheme := List.mem_map_of_mem lowerChar hmem
        rw [hb] at hin
        have hsp2 : lowerChar ' ' = ' ' := by decide
        rw [hsp2] at hin
        revert hin
        decide
      have hne : scheme ++ ' ' :: secret ≠ [] := by
        intro h
        have hl := congrArg List.length h
        simp at hl
      simp only [Server.verify_secret_key, if_neg hs, if_neg hne,
        splitFirstSpace_complete scheme secret hnos]
      simp [hb]

/-- Witness for C2 at a concrete secret and header. -/
theorem verify_secret_key_correct_witness :
    ("tok3n".data ≠ ([] : List Char)) ∧
    (Server.verify_secret_key [] (some ("Bearer tok3n".data)) = .configError ∧
     (∃ b, Server.verify_secret_key ("tok3n".data) (some ("Bearer tok3n".data)) = .ok b) ∧
     (Server.verify_secret_key ("tok3n".data) (some ("Bearer tok3n".data)) = .ok true ↔
       ∃ scheme, lowerStr scheme = ("bearer".data) ∧
         some ("Bearer tok3n".data) = some (scheme ++ ' ' :: ("tok3n".data)))) :=
  ⟨by decide, verify_secret_key_correct ("tok3n".data) (some ("Bearer tok3n".data)) (by decide)⟩

/-! ### Helper lemmas shared by the claim theorems -/

theorem foldl_append_map {β : Type} (f : β → List Char) :
    ∀ (l : List β) (init : List Char),
      l.foldl (fun acc i => acc ++ f i) init = init ++ (l.map f).flatten := by
  intro l
  induction l with
  | nil => intro init; simp
  | cons a t ih =>
    intro init
    simp only [List.foldl_cons, List.map_cons, List.flatten_cons, ih (init ++ f a),
      List.append_assoc]

theorem getD_map_range {β : Type} (f : Nat → β) (d : β) (n i : Nat) (hi : i < n) :
    ((List.range n).map f).getD i d = f i := by
  rw [List.getD_eq_getElem?_getD, List.getElem?_map, List.getElem?_range hi]
  rfl

/-! ### Claim theorems -/

/-- C1 (code bug): a generation request made while the service is not ready
(`models_ready = False`) never invokes the sampler (invocation count 0), but
the caller does not receive the ServiceUnavailable status: the 503 raised by
`generate_from_text` is caught by the handler's `except Exception` and
re-raised as a 500 whose detail merely quotes the 503 condition. -/
theorem text_to_3d_not_ready_bug :
    Server.text_to_3d ("k".data) stNotReady trivCollab trivCtx
        { prompt := ("a cube".data), userId := some ("u1".data) }
        none none (some ("Bearer k".data))
      = (.error ⟨500, ("503: Models not ready".data)⟩, stNotReady, 0) := by
  rfl

/-- C3 (counterexample): with the remote tier unavailable
(`gcs_client is None`), listing a user's artifacts does not return an empty
sequence — it raises 503 "Storage not available". -/
theorem get_user_models_unavailable_counterexample :
    Server.get_user_models none ("user_ca96dd48".data)
      = .error ⟨503, ("Storage not available".data)⟩ := by
  rfl

/-- C3 (amended): for every caller identity, listing while the remote
storage tier is unavailable returns the 503 "Storage not available" error
(the endpoint raises before its `try` block; no empty-list path exists). -/
theorem get_user_models_unavailable_errors (userId : List Char) :
    Server.get_user_models none userId
      = .error ⟨503, ("Storage not available".data)⟩ := by
  rfl

/-- C4 (counterexample): in the production server (`load_models_fast`), the
image model load is not optional — a failure there aborts the whole gate, so
readiness is NOT reached for text-to-3D. -/
theorem load_models_fast_image_failure_counterexample :
    (Server.load_models_fast true false true true).modelsReady = false := by
  rfl

/-- C4 (amended): in the local server variant an image-capability load
failure leaves the gate Ready with the image capability absent, text
generation still invokes the sampler, and an image request with the
capability absent is rejected before any inference with a detail message
distinct from the general unreadiness one — though surfaced with a generic
500 status by the handler's catch-all; in the production variant
(`load_models_fast`) an image load failure instead prevents readiness
entirely. -/
theorem image_capability_optional_amended :
    ((LocalServer.load_models true false true).modelsReady = true ∧
     (LocalServer.load_models true false true).imageModelLoaded = false) ∧
    (∀ (α : Type) (sample : List Char → PCloudG α) (prompt : List Char),
      LocalServer.generate_from_text (LocalServer.load_models true false true)
          sample prompt
        = (.ok (sample prompt), 1)) ∧
    (∀ (α : Type) (st : LocalServer.LState) (co : LocalServer.LocalCollab α)
        (fs : FileSys) (ctx : LocalServer.LocalCtx) (img : List Nat)
        (fng : Bool) (stem uid : List Char) (gs : Int),
      st.imageModelLoaded = false →
        LocalServer.image_to_3d st co fs ctx img fng stem uid gs
          = (.error ⟨500,
               ("503: Image model not available. Use text-to-3D instead.".data)⟩,
             fs, 0)) ∧
    (("503: Image model not available. Use text-to-3D instead.".data : List Char)
        ≠ ("503: Models not ready".data)) ∧
    ((Server.load_models_fast true false true true).modelsReady = false) := by
  refine ⟨⟨rfl, rfl⟩, ?_, ?_, by decide, rfl⟩
  · intro α sample prompt
    rfl
  · intro α st co fs ctx img fng stem uid gs h
    simp only [LocalServer.image_to_3d, h, Bool.not_false, if_true]
    rfl

/-- Witness for C4 at a concrete state, collaborator and request. -/
theorem image_capability_optional_amended_witness :
    LocalServer.image_to_3d (LocalServer.load_models true false true)
        trivLocalCollab [] trivLocalCtx [] false [] ("local".data) 32
      = (.error ⟨500,
           ("503: Image model not available. Use text-to-3D instead.".data)⟩,
         [], 0) :=
  image_capability_optional_amended.2.2.1 Int (LocalServer.load_models true false true)
    trivLocalCollab [] trivLocalCtx [] false [] ("local".data) 32 rfl

/-- C7 (counterexample): the remote-tier path computed for a concrete
artifact is rooted at the literal segment "users", not "owner". -/
theorem get_storage_path_counterexample :
    Server.get_storage_path ("alice".data) ("f.ply".data) ⟨2025, 1, 2⟩
      = ("users/alice/2025/01/02/f.ply".data) ∧
    Server.get_storage_path ("alice".data) ("f.ply".data) ⟨2025, 1, 2⟩
      ≠ ("owner/alice/2025/01/02/f.ply".data) := by
  exact ⟨by decide, by decide⟩

/-- C7 (amended): for every identity, date and filename the remote-tier
path equals users/<identity>/<year>/<month>/<day>/<filename> (month and day
zero-padded to two digits, year to four), while the local tier writes every
file flat into the single scratch directory /tmp/point-e-models. -/
theorem storage_path_shape (userId filename : List Char) (d : DateD)
    (fs : FileSys) (content : List Nat) :
    Server.get_storage_path userId filename d
      = ("users/".data) ++ userId ++ ("/".data) ++ pad4 d.year ++ ("/".data)
        ++ pad2 d.month ++ ("/".data) ++ pad2 d.day ++ ("/".data) ++ filename ∧
    Server.save_to_local fs content filename
      = (fsWrite fs (("/tmp/point-e-models/".data) ++ filename) content,
         ("/download/".data) ++ filename) := by
  constructor
  · simp [Server.get_storage_path, Server.dateFolder, List.append_assoc]
  · rfl

/-- C9: deriveIdentity is deterministic — the derived identity depends only
on the caller-agent value, the forwarded-address value and the calendar day
(the only time-dependence of `generate_user_id` is `datetime.now().date()`,
made an explicit argument here). -/
theorem generate_user_id_deterministic (ua1 ip1 : Option (List Char)) (d1 : DateD)
    (ua2 ip2 : Option (List Char)) (d2 : DateD)
    (hua : ua1 = ua2) (hip : ip1 = ip2) (hd : d1 = d2) :
    Server.generate_user_id ua1 ip1 d1 = Server.generate_user_id ua2 ip2 d2 := by
  subst hua
  subst hip
  subst hd
  rfl

/-- Witness for C9 at concrete metadata. -/
theorem generate_user_id_deterministic_witness :
    Server.generate_user_id (some ("GodotEngine".data)) (some ("1.2.3.4".data))
        ⟨2025, 10, 12⟩
      = Server.generate_user_id (some ("GodotEngine".data)) (some ("1.2.3.4".data))
        ⟨2025, 10, 12⟩ :=
  generate_user_id_deterministic (some ("GodotEngine".data)) (some ("1.2.3.4".data))
    ⟨2025, 10, 12⟩ (some ("GodotEngine".data)) (some ("1.2.3.4".data))
    ⟨2025, 10, 12⟩ rfl rfl rfl

/-- C10: local-tier round trip — saving bytes under a filename returns the
access path /download/<filename>, and downloading that filename afterwards
succeeds with exactly the saved bytes. -/
theorem local_roundtrip (fs : FileSys) (content : List Nat) (filename : List Char) :
    (Server.save_to_local fs content filename).2 = ("/download/".data) ++ filename ∧
    Server.download (Server.save_to_local fs content filename).1 filename
      = .ok content := by
  constructor
  · rfl
  · simp [Server.download, Server.save_to_local, fsRead, fsWrite, List.lookup]

/-- C5 (counterexample): a text request with `grid_size = 0` is not rejected
with any validation error — the text sampler is invoked (count 1) and the
request succeeds, the zero grid being passed straight to mesh
reconstruction. -/
theorem grid_size_not_validated_counterexample :
    (Server.text_to_3d ("k".data) stReadyLocal trivCollab trivCtx reqGrid0
        none none (some ("Bearer k".data))).2.2 = 1 ∧
    (Server.text_to_3d ("k".data) stReadyLocal trivCollab trivCtx reqGrid0
        none none (some ("Bearer k".data))).1
      = .ok { success := true
              message := ("Generated mesh: a cube".data)
              fileUrl := ("/download/mesh_a cube_20251012_120000_abcd1234.ply".data)
              downloadUrl := ("/download/mesh_a cube_20251012_120000_abcd1234.ply".data)
              userId := ("u1".data)
              vertices := 0
              faces := 0
              expiresAt := ("2025-11-11T12:00:00".data) } := by
  exact ⟨rfl, rfl⟩

/-- C5 (amended): the handler performs no validation of `grid_size`: for an
authenticated mesh request in the ready state (local storage tier), whatever
integer `grid_size` carries — including 0 and negatives — the sampler is
invoked exactly once and the request succeeds, the grid value flowing
unchecked into the mesh-reconstruction call. -/
theorem grid_size_passthrough_amended {α : Type} [Inhabited α] (secret : List Char)
    (st : Server.ServerState) (co : Server.Collab α) (ctx : Server.ReqCtx)
    (req : Server.TextRequestM) (ua xff auth : Option (List Char)) (uid : List Char)
    (hauth : Server.verify_secret_key secret auth = .ok true)
    (hready : st.modelsReady = true) (htext : st.textSamplerLoaded = true)
    (hsdf : st.sdfLoaded = true) (hgcs : st.gcsAvailable = false)
    (hfmt : req.format = ("mesh".data)) (huid : req.userId = some uid)
    (huidne : uid ≠ []) :
    Server.text_to_3d secret st co ctx req ua xff auth
      = (let fn := ("mesh_".data) ++ safePromptOf req.prompt ++ ("_".data)
           ++ ctx.timestamp ++ ("_".data) ++ ctx.requestId ++ (".ply".data)
         let mesh := co.meshify (co.sample req.prompt) req.gridSize
         (Except.ok
          { success := true
            message := ("Generated mesh: ".data) ++ req.prompt
            fileUrl := ("/download/".data) ++ fn
            downloadUrl := ("/download/".data) ++ fn
            userId := uid
            vertices := mesh.verts.length
            faces := mesh.faces.length
            expiresAt := ctx.expiresIso },
          { st with fs := fsWrite st.fs (("/tmp/point-e-models/".data) ++ fn) (co.meshPly mesh) },
          1)) := by
  simp only [Server.text_to_3d, hauth, huid, huidne, if_neg, Server.generate_from_text,
    hready, htext, Bool.not_true, Bool.or_self, Bool.false_or, if_false,
    Server.pointcloud_to_mesh, hsdf, hfmt, if_pos, Server.storeArtifact, hgcs,
    Server.save_to_local, Bool.false_eq_true, ite_false, ite_true, Bool.not_false]

/-- Witness for C5 at a concrete ready state and a concrete request with
`grid_size = 0`. -/
theorem grid_size_passthrough_amended_witness :
    Server.text_to_3d ("k".data) stReadyLocal trivCollab trivCtx reqGrid0
        none none (some ("Bearer k".data))
      = (Except.ok
          { success := true
            message := ("Generated mesh: a cube".data)
            fileUrl := ("/download/mesh_a cube_20251012_120000_abcd1234.ply".data)
            downloadUrl := ("/download/mesh_a cube_20251012_120000_abcd1234.ply".data)
            userId := ("u1".data)
            vertices := 0
            faces := 0
            expiresAt := ("2025-11-11T12:00:00".data) },
         { stReadyLocal with fs := fsWrite [] ("/tmp/point-e-models/mesh_a cube_20251012_120000_abcd1234.ply".data) [] },
         1) :=
  (grid_size_passthrough_amended ("k".data) stReadyLocal trivCollab trivCtx reqGrid0
    none none (some ("Bearer k".data)) ("u1".data) (by decide) rfl rfl rfl rfl rfl
    rfl (by decide)).trans rfl

/-- C6 (counterexample): the catalog classifies by substring occurrence of
"mesh_" in the full object name, not by a filename prefix: a stored
point cloud whose sanitized prompt contained "mesh_" yields an entry with
kind "mesh" although its filename begins with "pointcloud_". -/
theorem model_type_substring_counterexample :
    Server.get_user_models (some [blobTricky]) ("u1".data)
      = .ok { userId := ("u1".data)
              models := [Server.entryOf blobTricky]
              totalCount := 1 } ∧
    (Server.entryOf blobTricky).mtype = ("mesh".data) ∧
    startsWithL ("mesh_".data) (Server.entryOf blobTricky).filename = false := by
  exact ⟨rfl, rfl, by decide⟩

/-- C6 (amended): every entry returned by the asset catalog has kind "mesh"
exactly when the characters "mesh_" occur anywhere in the blob's full
storage path (`"mesh_" in blob.name`), and "pointcloud" otherwise; the kind
is computed from the name alone, never from stored metadata. -/
theorem model_type_from_substring (blobs : List Server.Blob) (userId : List Char)
    (m : Server.ModelEntry) (resp : Server.UserModelsResp)
    (hresp : Server.get_user_models (some blobs) userId = .ok resp)
    (hm : m ∈ resp.models) :
    m.mtype = (if containsSub m.path ("mesh_".data) then ("mesh".data)
               else ("pointcloud".data)) := by
  simp only [Server.get_user_models, Except.ok.injEq] at hresp
  subst hresp
  have hm2 : m ∈ List.insertionSort
      (fun a b => Server.strLeB (Server.createdKey b) (Server.createdKey a) = true)
      (((blobs.filter
        (fun b => startsWithL (("users/".data) ++ userId ++ ("/".data)) b.name)).filter
        (fun b => endsWithL (".ply".data) b.name)).map Server.entryOf) := hm
  rw [List.mem_insertionSort] at hm2
  obtain ⟨b, _, hbe⟩ := List.mem_map.mp hm2
  subst hbe
  rfl

/-- Witness for C6 at a concrete one-blob catalog. -/
theorem model_type_from_substring_witness :
    (Server.entryOf blobMesh).mtype
      = (if containsSub (Server.entryOf blobMesh).path ("mesh_".data)
         then ("mesh".data) else ("pointcloud".data)) :=
  model_type_from_substring [blobMesh] ("u2".data) (Server.entryOf blobMesh)
    { userId := ("u2".data), models := [Server.entryOf blobMesh], totalCount := 1 }
    rfl (by simp)

/-- C8: the point-cloud codec emits a header declaring `element vertex N`
with three float position properties, three uchar colour properties exactly
when colour channels are present, followed by exactly one line per vertex
(N lines), each carrying the formatted coordinates and — when colours are
present — the three channel values scaled by 255 and truncated to integers. -/
theorem save_pointcloud_ply_format {α : Type} [Inhabited α] (fmt : α → List Char)
    (pc : PCloudG α)
    (_hch : ∀ pr ∈ pc.channels, pr.2.length = pc.coords.length)
    (_hrgb : hasR pc = true →
      (List.lookup ("G".data) pc.channels).isSome = true ∧
      (List.lookup ("B".data) pc.channels).isSome = true) :
    ∃ vlines : List (List Char),
      vlines.length = pc.coords.length ∧
      (∀ i, i < pc.coords.length → vlines.getD i [] = plyVertexLine fmt pc i) ∧
      save_pointcloud_ply fmt pc =
        joinNl ((["ply".data, "format ascii 1.0".data,
            ("element vertex ".data) ++ natStr pc.coords.length,
            "property float x".data, "property float y".data,
            "property float z".data]
          ++ (if hasR pc then
                ["property uchar red".data, "property uchar green".data,
                 "property uchar blue".data]
              else [])
          ++ ["end_header".data]) ++ vlines) := by
  refine ⟨(List.range pc.coords.length).map (plyVertexLine fmt pc), by simp, ?_, ?_⟩
  · intro i hi
    exact getD_map_range _ _ _ _ hi
  · simp only [save_pointcloud_ply, joinNl]
    rw [foldl_append_map (fun i => plyVertexLine fmt pc i ++ ("\n".data))]
    by_cases hR : hasR pc = true
    · simp [hR, List.map_append, List.flatten_append, List.map_map, Function.comp_def,
        List.append_assoc, List.cons_append, List.nil_append]
    · simp [hR, List.map_append, List.flatten_append, List.map_map, Function.comp_def,
        List.append_assoc, List.cons_append, List.nil_append]

/-- Witness for C8 at a concrete coloured two-point cloud. -/
theorem save_pointcloud_ply_format_witness :
    ∃ vlines : List (List Char),
      vlines.length = pcSample.coords.length ∧
      (∀ i, i < pcSample.coords.length →
        vlines.getD i [] = plyVertexLine (fun v => intStr v) pcSample i) ∧
      save_pointcloud_ply (fun v => intStr v) pcSample =
        joinNl ((["ply".data, "format ascii 1.0".data,
            ("element vertex ".data) ++ natStr pcSample.coords.length,
            "property float x".data, "property float y".data,
            "property float z".data]
          ++ (if hasR pcSample then
                ["property uchar red".data, "property uchar green".data,
                 "property uchar blue".data]
              else [])
          ++ ["end_header".data]) ++ vlines) :=
  save_pointcloud_ply_format (fun v => intStr v) pcSample (by decide) (by decide)
